import Mathlib

/-!
Verification of the exhibition swirl-background / LED-strip controller.

The JavaScript and Arduino sources are embedded shallowly:
pure functions become Lean functions over exact arithmetic (`ℚ` for the
JS floating-point computations, `ℤ`/`ℕ` for the integer color channels),
mutable objects become explicit state records, and side effects (strip
flushes, serial writes, timer sends) become explicit effect lists.
`Math.round` is modelled as `⌊x + 1/2⌋` (JS rounds half toward +∞).
-/

/-- Exhibition states. The Arduino sketch additionally has a `STATE_NONE`
sentinel, modelled as `none : Option StName`. -/
inductive StName where
  | standby
  | arrival
  | alert
  | adaptive
  | connection
deriving DecidableEq

/-- JS `Math.round`: round half toward positive infinity, `⌊q + 1/2⌋`. -/
def jsRound (q : ℚ) : ℤ := (q + 1/2).floor

/-- Quintic ease-in-out from `script.js` `updateConfig` and
`ledController.js` `transitionToState`:
`progress < 0.5 ? 16 p^5 : 1 - (-2p+2)^5 / 2`. -/
def quinticEase (p : ℚ) : ℚ :=
  if p < 1/2 then 16 * p^5 else 1 - (2 - 2*p)^5 / 2

/-- Gentler quartic ease-in-out used by `updateConfig` for the two colors:
`progress < 0.5 ? 2 p^4 : 1 - (-2p+2)^4 / 2`. -/
def quarticEase (p : ℚ) : ℚ :=
  if p < 1/2 then 2 * p^4 else 1 - (2 - 2*p)^4 / 2

/-- A 3-component float vector (colors are 3 floats in 0..1). -/
structure Vec3 where
  x : ℚ
  y : ℚ
  z : ℚ
deriving DecidableEq

/-- The `lerp` from `script.js`: `start + (end - start) * alpha`. -/
def lerp (s e a : ℚ) : ℚ := s + (e - s) * a

/-- The `mixVec3` from `script.js`: componentwise `lerp`. -/
def mixVec3 (s e : Vec3) (a : ℚ) : Vec3 :=
  ⟨lerp s.x e.x a, lerp s.y e.y a, lerp s.z e.z a⟩

/-- The six-field visual parameter set of one state (`stateConfigs` entry). -/
structure SwirlCfg where
  primary : Vec3
  secondary : Vec3
  speed : ℚ
  intensity : ℚ
  noiseScale : ℚ
  distortion : ℚ
deriving DecidableEq

/-- The `stateConfigs` from `src/script.js` (lines 1-42). -/
def stateConfigs : StName → SwirlCfg
  | .standby =>
      { primary := ⟨0.04, 0.05, 0.08⟩, secondary := ⟨0.22, 0.3, 0.35⟩,
        speed := 0.08, intensity := 0.42, noiseScale := 1.5, distortion := 1.25 }
  | .arrival =>
      { primary := ⟨0.08, 0.11, 0.18⟩, secondary := ⟨0.7, 0.82, 0.92⟩,
        speed := 0.16, intensity := 0.5, noiseScale := 1.7, distortion := 1.4 }
  | .alert =>
      { primary := ⟨0.32, 0.05, 0.03⟩, secondary := ⟨0.95, 0.35, 0.05⟩,
        speed := 0.5, intensity := 0.7, noiseScale := 2.1, distortion := 1.6 }
  | .adaptive =>
      { primary := ⟨0.18, 0.11, 0.31⟩, secondary := ⟨0.65, 0.35, 0.75⟩,
        speed := 0.25, intensity := 0.58, noiseScale := 1.2, distortion := 1.9 }
  | .connection =>
      { primary := ⟨0.25, 0.15, 0.06⟩, secondary := ⟨0.93, 0.65, 0.22⟩,
        speed := 0.12, intensity := 0.52, noiseScale := 1.0, distortion := 1.2 }

namespace Swirl

/-- Mutable transition state of `SwirlBackground` (`script.js` init, lines
220-224).  `transitionStartTime` keeps the JS number-or-null status; the JS
guard `!this.transitionStartTime` additionally treats the number `0` as
unset, which the embedding reproduces. -/
structure SwirlState where
  currentConfig : Option SwirlCfg
  targetConfig : Option SwirlCfg
  startConfig : Option SwirlCfg
  transitionStartTime : Option ℚ
deriving DecidableEq

/-- The `transitionDuration = 11.0` seconds (`script.js` line 224). -/
def transitionDuration : ℚ := 11

/-- The `cloneConfig` (`script.js` lines 284-293): a fresh object with the same
six field values; in value semantics a field-by-field copy. -/
def cloneConfig (c : SwirlCfg) : SwirlCfg :=
  { primary := c.primary, secondary := c.secondary, speed := c.speed,
    intensity := c.intensity, noiseScale := c.noiseScale,
    distortion := c.distortion }

/-- The `SwirlBackground.setState` (`script.js` lines 295-312).  `now` is
`performance.now() * 0.001` at the call. -/
def setState (cfg : Option SwirlCfg) (now : ℚ) (s : SwirlState) : SwirlState :=
  match cfg with
  | none => s
  | some config =>
    let s1 :=
      match s.currentConfig, s.targetConfig with
      | some cur, some _ => { s with startConfig := some (cloneConfig cur) }
      | none, _ =>
          { s with currentConfig := some (cloneConfig config),
                   startConfig := some (cloneConfig config) }
      | some cur, none => { s with startConfig := some (cloneConfig cur) }
    { s1 with targetConfig := some (cloneConfig config),
              transitionStartTime := some now }

/-- The interpolated display parameters written into `currentConfig` by
`updateConfig` at eased progress `alpha` (motion) and `colorAlpha` (colors). -/
def displayedCfg (st tgt : SwirlCfg) (alpha colorAlpha : ℚ) : SwirlCfg :=
  { primary := mixVec3 st.primary tgt.primary colorAlpha,
    secondary := mixVec3 st.secondary tgt.secondary colorAlpha,
    speed := lerp st.speed tgt.speed alpha,
    intensity := lerp st.intensity tgt.intensity alpha,
    noiseScale := lerp st.noiseScale tgt.noiseScale alpha,
    distortion := lerp st.distortion tgt.distortion alpha }

/-- The `SwirlBackground.updateConfig` (`script.js` lines 314-346). -/
def updateConfig (now : ℚ) (s : SwirlState) : SwirlState :=
  match s.targetConfig, s.currentConfig, s.startConfig, s.transitionStartTime with
  | some tgt, some _, some st, some ts =>
    if ts = 0 then s
    else
      let elapsed := now - ts
      let progress := min (elapsed / transitionDuration) 1
      let alpha := quinticEase progress
      let colorAlpha := quarticEase progress
      { s with currentConfig := some (displayedCfg st tgt alpha colorAlpha) }
  | _, _, _, _ => s

end Swirl

/-- Claim C1: whenever `setState(config2)` is called on the Visual Engine
while a transition toward `config1` is still in flight (`currentConfig` and
`targetConfig` both set, progress < 1), the new transition's start
parameters equal the currently displayed interpolated parameter values at
the moment of the call (all six fields), and its target is `config2` — not
the original start of the interrupted transition and not its abandoned
target. -/
theorem c1_transition_continuity
    (s : Swirl.SwirlState) (st tgt cur : SwirlCfg) (ts now now2 : ℚ)
    (cfg2 : SwirlCfg)
    (hst : s.startConfig = some st)
    (htgt : s.targetConfig = some tgt)
    (hcur : s.currentConfig = some cur)
    (hts : s.transitionStartTime = some ts)
    (hts0 : ts ≠ 0)
    (hprog : (now - ts) / Swirl.transitionDuration < 1) :
    (Swirl.setState (some cfg2) now2 (Swirl.updateConfig now s)).startConfig
        = (Swirl.updateConfig now s).currentConfig
      ∧ (Swirl.updateConfig now s).currentConfig
          = some (Swirl.displayedCfg st tgt
              (quinticEase (min ((now - ts) / Swirl.transitionDuration) 1))
              (quarticEase (min ((now - ts) / Swirl.transitionDuration) 1)))
      ∧ (Swirl.setState (some cfg2) now2 (Swirl.updateConfig now s)).targetConfig
          = some cfg2 := by
  obtain ⟨cc, tc, sc, tst⟩ := s
  cases hst
  cases htgt
  cases hcur
  cases hts
  simp [Swirl.updateConfig, Swirl.setState, Swirl.cloneConfig, if_neg hts0]

/-- Witness for C1 at a concrete in-flight transition. -/
theorem c1_transition_continuity_witness :
    let cfgA : SwirlCfg :=
      { primary := ⟨0, 0, 0⟩, secondary := ⟨1, 1, 1⟩,
        speed := 0, intensity := 0, noiseScale := 1, distortion := 1 }
    let cfgB : SwirlCfg :=
      { primary := ⟨1, 0, 0⟩, secondary := ⟨0, 1, 0⟩,
        speed := 1, intensity := 1, noiseScale := 2, distortion := 3 }
    let cfg2 : SwirlCfg :=
      { primary := ⟨0, 0, 1⟩, secondary := ⟨1, 0, 1⟩,
        speed := 2, intensity := 2, noiseScale := 4, distortion := 5 }
    let s : Swirl.SwirlState :=
      { currentConfig := some cfgA, targetConfig := some cfgB,
        startConfig := some cfgA, transitionStartTime := some 1 }
    (Swirl.setState (some cfg2) 3 (Swirl.updateConfig 2 s)).startConfig
        = (Swirl.updateConfig 2 s).currentConfig
      ∧ (Swirl.updateConfig 2 s).currentConfig
          = some (Swirl.displayedCfg cfgA cfgB
              (quinticEase (min ((2 - 1) / Swirl.transitionDuration) 1))
              (quarticEase (min ((2 - 1) / Swirl.transitionDuration) 1)))
      ∧ (Swirl.setState (some cfg2) 3 (Swirl.updateConfig 2 s)).targetConfig
          = some cfg2 :=
  c1_transition_continuity _ _ _ _ 1 2 3 _ rfl rfl rfl rfl
    (by norm_num) (by norm_num [Swirl.transitionDuration])

namespace Host

/-- Host-side RGBW color: four JS numbers that are integers after
`Math.round`, so modelled as `ℤ`. -/
structure RGBWh where
  r : ℤ
  g : ℤ
  b : ℤ
  w : ℤ
deriving DecidableEq

/-- The `LEDController.rgbToRGBW` (ledController.js variant 1, lines 20-56):
scale to 0-255, boost dim colors, zero white channel. -/
def rgbToRGBW (r g b : ℚ) : RGBWh :=
  let r255 := jsRound (r * 255)
  let g255 := jsRound (g * 255)
  let b255 := jsRound (b * 255)
  let maxVal := max r255 (max g255 b255)
  let boostFactor : ℚ :=
    if maxVal < 30 then 100 / (maxVal : ℚ)
    else if maxVal < 100 then 1.5
    else if maxVal < 200 then 1.2
    else 1
  let r1 := if 0 < maxVal then min 255 (jsRound ((r255 : ℚ) * boostFactor)) else r255
  let g1 := if 0 < maxVal then min 255 (jsRound ((g255 : ℚ) * boostFactor)) else g255
  let b1 := if 0 < maxVal then min 255 (jsRound ((b255 : ℚ) * boostFactor)) else b255
  ⟨min 255 r1, min 255 g1, min 255 b1, 0⟩

/-- The `LEDController.getStateColor` (variant 1, lines 59-85): blend
30% primary / 70% secondary of the state's visual config, convert to RGBW,
and raise a faint floor for `standby`. -/
def getStateColor (s : StName) : RGBWh :=
  let config := stateConfigs s
  let mixFactor : ℚ := 0.7
  let r := config.primary.x * (1 - mixFactor) + config.secondary.x * mixFactor
  let g := config.primary.y * (1 - mixFactor) + config.secondary.y * mixFactor
  let b := config.primary.z * (1 - mixFactor) + config.secondary.z * mixFactor
  let rgbw := rgbToRGBW r g b
  if s = .standby then ⟨max 3 rgbw.r, max 4 rgbw.g, max 5 rgbw.b, 0⟩ else rgbw

/-- Fade step count (`steps = 100`, `transitionToState` variant 1). -/
def fadeSteps : ℕ := 100

/-- Fade duration in milliseconds (`setState` passes 3500). -/
def fadeDurationMs : ℕ := 3500

/-- The color sent on interval tick `k`:
`Math.round(start + (target - start) * eased)` per channel, where
`eased = quinticEase (k / steps)`. -/
def fadeStep (s t : RGBWh) (k : ℕ) : RGBWh :=
  let eased := quinticEase ((k : ℚ) / (fadeSteps : ℚ))
  ⟨jsRound ((s.r : ℚ) + ((t.r : ℚ) - (s.r : ℚ)) * eased),
   jsRound ((s.g : ℚ) + ((t.g : ℚ) - (s.g : ℚ)) * eased),
   jsRound ((s.b : ℚ) + ((t.b : ℚ) - (s.b : ℚ)) * eased),
   jsRound ((s.w : ℚ) + ((t.w : ℚ) - (s.w : ℚ)) * eased)⟩

/-- The repeating interval body of `transitionToState` (variant 1, lines
263-287), unrolled: send the eased color for `currentStep`, increment, and
once `currentStep > steps` stop and re-send the exact target. -/
def fadeGo (s t : RGBWh) (currentStep : ℕ) : List RGBWh :=
  fadeStep s t currentStep ::
    (if h : fadeSteps < currentStep + 1 then [t] else fadeGo s t (currentStep + 1))
termination_by fadeSteps + 1 - currentStep
decreasing_by
  simp only [fadeSteps] at *
  omega

/-- All colors sent by one complete software fade, in order. -/
def fadeSends (s t : RGBWh) : List RGBWh := fadeGo s t 0

/-- Evaluation rule for `jsRound` by its floor bounds. -/
theorem jsRound_eq {q : ℚ} {z : ℤ} (h1 : (z : ℚ) ≤ q + 1/2)
    (h2 : q + 1/2 < (z : ℚ) + 1) : jsRound q = z := by
  have h : Int.floor (q + 1/2) = z := by
    rw [Int.floor_eq_iff]
    · exact ⟨h1, by push_cast at h2 ⊢; linarith⟩
  exact h

/-- Concrete value of the standby LED color computed by `getStateColor`. -/
theorem getStateColor_standby : getStateColor .standby = ⟨63, 86, 104, 0⟩ := by
  have h1 : jsRound ((0.04 * (1 - 0.7) + 0.22 * 0.7) * 255) = 42 :=
    jsRound_eq (by norm_num) (by norm_num)
  have h2 : jsRound ((0.05 * (1 - 0.7) + 0.3 * 0.7) * 255) = 57 :=
    jsRound_eq (by norm_num) (by norm_num)
  have h3 : jsRound ((0.08 * (1 - 0.7) + 0.35 * 0.7) * 255) = 69 :=
    jsRound_eq (by norm_num) (by norm_num)
  simp only [getStateColor, rgbToRGBW, stateConfigs, h1, h2, h3]
  norm_num
  have h4 : jsRound ((63 : ℚ)) = 63 := jsRound_eq (by norm_num) (by norm_num)
  have h5 : jsRound ((171 : ℚ) / 2) = 86 := jsRound_eq (by norm_num) (by norm_num)
  have h6 : jsRound ((207 : ℚ) / 2) = 104 := jsRound_eq (by norm_num) (by norm_num)
  rw [h4, h5, h6]
  norm_num

/-- Concrete value of the alert LED color computed by `getStateColor`. -/
theorem getStateColor_alert : getStateColor .alert = ⟨233, 79, 13, 0⟩ := by
  have h1 : jsRound ((0.32 * (1 - 0.7) + 0.95 * 0.7) * 255) = 194 :=
    jsRound_eq (by norm_num) (by norm_num)
  have h2 : jsRound ((0.05 * (1 - 0.7) + 0.35 * 0.7) * 255) = 66 :=
    jsRound_eq (by norm_num) (by norm_num)
  have h3 : jsRound ((0.03 * (1 - 0.7) + 0.05 * 0.7) * 255) = 11 :=
    jsRound_eq (by norm_num) (by norm_num)
  simp only [getStateColor, rgbToRGBW, stateConfigs, h1, h2, h3]
  norm_num
  have h4 : jsRound ((1164 : ℚ) / 5) = 233 := jsRound_eq (by norm_num) (by norm_num)
  have h5 : jsRound ((396 : ℚ) / 5) = 79 := jsRound_eq (by norm_num) (by norm_num)
  have h6 : jsRound ((66 : ℚ) / 5) = 13 := jsRound_eq (by norm_num) (by norm_num)
  rw [h4, h5, h6]
  norm_num

/-- Host controller connection state (`LEDController` fields). -/
structure HostState where
  isConnected : Bool
  currentState : Option StName
deriving DecidableEq

/-- The `startColor` of `transitionToState` (variant 1, line 253):
the canonical table color of the previous state, or all-zero. -/
def prevColor : Option StName → RGBWh
  | some p => getStateColor p
  | none => ⟨0, 0, 0, 0⟩

/-- The `LEDController.setState` (variant 1, lines 233-241) together with the
`transitionToState` it awaits: if disconnected, only record the state and
send nothing; if connected, start a fade from the previous state's table
color to the new state's color, sending one `(state, color)` line per tick. -/
def hostSetState (h : HostState) (s : StName) : HostState × List (StName × RGBWh) :=
  if h.isConnected = false then ({ h with currentState := some s }, [])
  else
    let previousState := h.currentState
    let h1 : HostState := { h with currentState := some s }
    let targetColor := getStateColor s
    let startColor := prevColor previousState
    (h1, (fadeSends startColor targetColor).map (fun c => (s, c)))

/-- The successful branch of `LEDController.connect` (lines 105-150):
mark connected, and if a state is pending, immediately send its color. -/
def connectSuccess (h : HostState) : HostState × List (StName × RGBWh) :=
  ({ h with isConnected := true },
   match h.currentState with
   | some s => [(s, getStateColor s)]
   | none => [])

/-- Closed form of `fadeGo`: from step `cs ≤ 100` the interval sends the
eased colors for steps `cs, cs+1, …, 100` and then the exact target. -/
theorem fadeGo_closed (s t : RGBWh) :
    ∀ m cs, cs + m = fadeSteps →
      fadeGo s t cs
        = (List.range (m + 1)).map (fun j => fadeStep s t (cs + j)) ++ [t] := by
  intro m
  induction m with
  | zero =>
    intro cs h
    rw [fadeGo]
    simp [fadeSteps] at h
    subst h
    simp [fadeSteps]
    rfl
  | succ n ih =>
    intro cs h
    have hlt : ¬ (fadeSteps < cs + 1) := by simp only [fadeSteps] at *; omega
    rw [fadeGo, dif_neg hlt, ih (cs + 1) (by omega)]
    conv_rhs => rw [List.range_succ_eq_map, List.map_cons, List.map_map,
      List.cons_append]
    simp only [Nat.add_zero]
    congr 1
    congr 1
    refine List.map_congr_left ?_
    intro j _
    simp only [Function.comp_apply]
    congr 1
    omega

end Host

/-- Claim C5: with the Lighting Engine connected, `setState(S)` drives a
timed software fade — duration 3500 ms, 100 interval steps — whose tick `k`
sends the color obtained by quintic-ease-in-out interpolation at progress
`k/steps` between the start and target colors, and whose final send after
the loop is exactly `getStateColor S`, so the last color sent equals the
target with no rounding drift. -/
theorem c5_host_fade (h : Host.HostState) (S : StName)
    (hc : h.isConnected = true) :
    (Host.hostSetState h S).2
        = (Host.fadeSends (Host.prevColor h.currentState)
            (Host.getStateColor S)).map (fun c => (S, c))
      ∧ Host.fadeSteps = 100
      ∧ Host.fadeDurationMs = 3500
      ∧ (∀ sC tC : Host.RGBWh, ∀ k : ℕ, k ≤ 100 →
          (Host.fadeSends sC tC)[k]? = some (Host.fadeStep sC tC k))
      ∧ (∀ sC tC : Host.RGBWh, (Host.fadeSends sC tC).getLast? = some tC) := by
  refine ⟨?_, rfl, rfl, ?_, ?_⟩
  · simp [Host.hostSetState, hc]
  · intro sC tC k hk
    have hclosed := Host.fadeGo_closed sC tC 100 0 rfl
    rw [Host.fadeSends, hclosed]
    have hlen : k < ((List.range (100 + 1)).map
        (fun j => Host.fadeStep sC tC (0 + j))).length := by
      simp
      omega
    rw [List.getElem?_append, if_pos hlen, List.getElem?_map]
    simp [List.getElem?_range, Nat.lt_succ_of_le hk]
  · intro sC tC
    have hclosed := Host.fadeGo_closed sC tC 100 0 rfl
    rw [Host.fadeSends, hclosed, List.getLast?_concat]

/-- Witness for C5 at a concrete connected controller. -/
theorem c5_host_fade_witness :
    (Host.hostSetState ⟨true, some .standby⟩ .alert).2
        = (Host.fadeSends (Host.prevColor (some .standby))
            (Host.getStateColor .alert)).map (fun c => (.alert, c))
      ∧ Host.fadeSteps = 100
      ∧ Host.fadeDurationMs = 3500
      ∧ (∀ sC tC : Host.RGBWh, ∀ k : ℕ, k ≤ 100 →
          (Host.fadeSends sC tC)[k]? = some (Host.fadeStep sC tC k))
      ∧ (∀ sC tC : Host.RGBWh, (Host.fadeSends sC tC).getLast? = some tC) :=
  c5_host_fade ⟨true, some .standby⟩ .alert rfl

/-- Claim C6: `setState(S)` while disconnected only records `S` as the
pending current state and sends nothing (the embedding is a total function,
so no error is raised), and a subsequent successful `connect()` immediately
sends the pending state's color. -/
theorem c6_disconnected_setstate (h : Host.HostState) (S : StName)
    (hdis : h.isConnected = false) :
    Host.hostSetState h S = ({ h with currentState := some S }, [])
      ∧ Host.connectSuccess { h with currentState := some S }
          = ({ h with currentState := some S, isConnected := true },
             [(S, Host.getStateColor S)]) := by
  constructor
  · simp [Host.hostSetState, hdis]
  · simp [Host.connectSuccess]

/-- Witness for C6 at a concrete disconnected controller. -/
theorem c6_disconnected_setstate_witness :
    Host.hostSetState ⟨false, none⟩ .arrival
        = ({ (⟨false, none⟩ : Host.HostState) with currentState := some .arrival }, [])
      ∧ Host.connectSuccess
            { (⟨false, none⟩ : Host.HostState) with currentState := some .arrival }
          = ({ (⟨false, none⟩ : Host.HostState) with
                currentState := some .arrival, isConnected := true },
             [(.arrival, Host.getStateColor .arrival)]) :=
  c6_disconnected_setstate ⟨false, none⟩ .arrival rfl

/-- Claim C10 (implicit): on the host-side Lighting Engine a state change
during an in-flight fade restarts from the previous state's canonical table
color `getStateColor(previousState)` (or all-zero when no previous state
exists), not from the interpolated color most recently sent; concretely,
the color sent mid-way (tick 50) through a standby→alert fade differs from
`getStateColor alert`, which is where a fade interrupting it would start,
so the sent color can jump discontinuously. -/
theorem c10_fade_restarts_from_table (h : Host.HostState) (S : StName)
    (hc : h.isConnected = true) :
    (Host.hostSetState h S).2
        = (Host.fadeSends (Host.prevColor h.currentState)
            (Host.getStateColor S)).map (fun c => (S, c))
      ∧ (∀ P, Host.prevColor (some P) = Host.getStateColor P)
      ∧ Host.prevColor none = ⟨0, 0, 0, 0⟩
      ∧ (Host.fadeSends (Host.getStateColor .standby)
            (Host.getStateColor .alert))[50]?
          ≠ some (Host.getStateColor .alert) := by
  refine ⟨?_, fun P => rfl, rfl, ?_⟩
  · simp [Host.hostSetState, hc]
  · rw [Host.fadeSends, Host.fadeGo_closed _ _ 100 0 rfl]
    have hlen : (50 : ℕ) < ((List.range (100 + 1)).map
        (fun j => Host.fadeStep (Host.getStateColor .standby)
          (Host.getStateColor .alert) (0 + j))).length := by
      simp
    rw [List.getElem?_append, if_pos hlen, List.getElem?_map,
      List.getElem?_range (by norm_num : (50 : ℕ) < 100 + 1)]
    rw [Host.getStateColor_standby, Host.getStateColor_alert]
    norm_num [Host.fadeStep, Host.fadeSteps, quinticEase]
    have h148 : jsRound ((148 : ℚ)) = 148 := Host.jsRound_eq (by norm_num) (by norm_num)
    intro hcontra
    rw [h148] at hcontra
    exact absurd hcontra (by norm_num)

/-- Witness for C10 at a concrete connected controller mid-fade. -/
theorem c10_fade_restarts_from_table_witness :
    (Host.hostSetState ⟨true, some .alert⟩ .adaptive).2
        = (Host.fadeSends (Host.prevColor (some .alert))
            (Host.getStateColor .adaptive)).map (fun c => (.adaptive, c))
      ∧ (∀ P, Host.prevColor (some P) = Host.getStateColor P)
      ∧ Host.prevColor none = ⟨0, 0, 0, 0⟩
      ∧ (Host.fadeSends (Host.getStateColor .standby)
            (Host.getStateColor .alert))[50]?
          ≠ some (Host.getStateColor .alert) :=
  c10_fade_restarts_from_table ⟨true, some .alert⟩ .adaptive rfl

namespace Coord

/-- Browser-context role (`document.body.dataset.role`, default controller). -/
inductive Role where
  | controller
  | follower
deriving DecidableEq

/-- The `{ broadcast = true, persist } = {}` options object of
`changeState` (`script.js` line 442): `broadcast` defaults to `true`,
`persist` defaults to `undefined` (modelled `none`). -/
structure CoordOpts where
  broadcast : Bool := true
  persist : Option Bool := none
deriving DecidableEq

/-- Availability of the collaborators consulted by `changeState`:
`SwirlBackground.isReady`, `LEDController.isConnected`, and whether the
`BroadcastChannel` exists. -/
structure CoordEnv where
  swirlReady : Bool
  ledConnected : Bool
  channelExists : Bool
deriving DecidableEq

/-- The `ExhibitionState` mutable fields relevant to `changeState`. -/
structure CoordState where
  currentState : Option String
  role : Role
deriving DecidableEq

/-- Observable side effects of `changeState` (DOM class toggling is
cosmetic and out of scope). -/
inductive CoordEffect where
  | swirlSetE (s : String)
  | ledSetE (s : String)
  | persistE (s : String)
  | broadcastE (s : String)
deriving DecidableEq

/-- The `ExhibitionState.changeState` (`script.js` lines 442-483): no-op on an
identical state; otherwise update `currentState`, call
`SwirlBackground.setState` when ready, call `LEDController.setState` when
connected, persist when `persist` (defaulting to controller-role), and
broadcast when `broadcast` holds, the role is controller and the channel
exists. -/
def changeState (n : String) (opts : CoordOpts) (env : CoordEnv)
    (st : CoordState) : CoordState × List CoordEffect :=
  if some n = st.currentState then (st, [])
  else
    let effs1 := if env.swirlReady then [CoordEffect.swirlSetE n] else []
    let effs2 := if env.ledConnected then [CoordEffect.ledSetE n] else []
    let shouldPersist :=
      match opts.persist with
      | some b => b
      | none => st.role == Role.controller
    let effs3 := if shouldPersist then [CoordEffect.persistE n] else []
    let effs4 :=
      if opts.broadcast ∧ st.role = Role.controller ∧ env.channelExists then
        [CoordEffect.broadcastE n]
      else []
    ({ st with currentState := some n }, effs1 ++ effs2 ++ effs3 ++ effs4)

/-- The `shouldPersist` value of `changeState`:
`typeof persist === 'boolean' ? persist : role === 'controller'`. -/
def shouldPersistVal (opts : CoordOpts) (st : CoordState) : Bool :=
  match opts.persist with
  | some b => b
  | none => st.role == Role.controller

end Coord

/-- Counterexample to claim C7 as stated: with the LED controller
disconnected (the common case), `changeState` to a genuinely new state does
NOT invoke the Lighting Engine's `setState`, so "invokes both engines'
setState" fails on the code. -/
theorem c7_counterexample :
    Coord.CoordEffect.ledSetE "alert" ∉
      (Coord.changeState "alert" {} ⟨true, false, true⟩
        ⟨some "standby", Coord.Role.controller⟩).2 := by
  decide

/-- Claim C7 as amended: `changeState(N)` is a complete no-op when `N`
equals the current state; otherwise it updates the current state to `N`,
invokes the Visual Engine's `setState` exactly when the rendering engine is
ready, invokes the Lighting Engine's `setState` exactly when it is
connected, persists exactly when the `persist` option (defaulting to true
only in the controller role) holds, and broadcasts exactly when the
`broadcast` option holds, the role is controller and the mirroring channel
exists — in particular a follower-role context never broadcasts. -/
theorem c7_changestate_amended (n : String) (opts : Coord.CoordOpts)
    (env : Coord.CoordEnv) (st : Coord.CoordState) :
    (some n = st.currentState → Coord.changeState n opts env st = (st, []))
      ∧ (some n ≠ st.currentState →
          (Coord.changeState n opts env st).1.currentState = some n
          ∧ (Coord.CoordEffect.swirlSetE n ∈ (Coord.changeState n opts env st).2
              ↔ env.swirlReady = true)
          ∧ (Coord.CoordEffect.ledSetE n ∈ (Coord.changeState n opts env st).2
              ↔ env.ledConnected = true)
          ∧ (Coord.CoordEffect.persistE n ∈ (Coord.changeState n opts env st).2
              ↔ Coord.shouldPersistVal opts st = true)
          ∧ (Coord.CoordEffect.broadcastE n ∈ (Coord.changeState n opts env st).2
              ↔ (opts.broadcast = true ∧ st.role = Coord.Role.controller
                  ∧ env.channelExists = true)))
      ∧ (st.role = Coord.Role.follower →
          Coord.CoordEffect.broadcastE n ∉ (Coord.changeState n opts env st).2) := by
  refine ⟨?_, ?_, ?_⟩
  · intro hsame
    simp [Coord.changeState, hsame]
  · intro hdiff
    rw [Coord.changeState, if_neg hdiff]
    refine ⟨rfl, ?_, ?_, ?_, ?_⟩
    · constructor
      · intro hmem
        simp only [List.mem_append] at hmem
        rcases hmem with ((h | h) | h) | h <;>
          first
            | (by_cases hc : env.swirlReady = true
               · exact hc
               · simp [hc] at h)
            | (revert h
               split <;> simp)
      · intro hc
        simp [hc]
    · constructor
      · intro hmem
        simp only [List.mem_append] at hmem
        rcases hmem with ((h | h) | h) | h <;>
          first
            | (by_cases hc : env.ledConnected = true
               · exact hc
               · simp [hc] at h)
            | (revert h
               split <;> simp)
      · intro hc
        simp [hc]
    · constructor
      · intro hmem
        simp only [List.mem_append] at hmem
        rcases hmem with ((h | h) | h) | h <;>
          first
            | (by_cases hc : Coord.shouldPersistVal opts st = true
               · exact hc
               · simp [Coord.shouldPersistVal] at hc
                 simp [hc] at h)
            | (revert h
               split <;> simp)
      · intro hc
        have : (match opts.persist with
            | some b => b
            | none => st.role == Coord.Role.controller) = true := hc
        simp [this]
    · constructor
      · intro hmem
        simp only [List.mem_append] at hmem
        rcases hmem with ((h | h) | h) | h <;>
          first
            | (by_cases hc : opts.broadcast = true ∧ st.role = Coord.Role.controller
                  ∧ env.channelExists = true
               · exact hc
               · simp only [if_neg hc] at h
                 simp at h)
            | (revert h
               split <;> simp)
      · intro hc
        simp [if_pos hc]
  · intro hrole
    rw [Coord.changeState]
    split
    · simp
    · intro hmem
      simp only [List.mem_append] at hmem
      rcases hmem with ((h | h) | h) | h <;> revert h <;> split <;>
        simp_all

/-- Witness for C7 (amended) at concrete follower-role inputs. -/
theorem c7_changestate_amended_witness :
    (Coord.changeState "standby" {} ⟨true, true, true⟩
        ⟨some "standby", Coord.Role.follower⟩
      = (⟨some "standby", Coord.Role.follower⟩, []))
    ∧ ((Coord.changeState "alert" {} ⟨true, true, true⟩
          ⟨some "standby", Coord.Role.follower⟩).1.currentState = some "alert")
    ∧ (Coord.CoordEffect.broadcastE "alert" ∉
        (Coord.changeState "alert" {} ⟨true, true, true⟩
          ⟨some "standby", Coord.Role.follower⟩).2) :=
  ⟨(c7_changestate_amended "standby" {} ⟨true, true, true⟩
      ⟨some "standby", Coord.Role.follower⟩).1 rfl,
   ((c7_changestate_amended "alert" {} ⟨true, true, true⟩
      ⟨some "standby", Coord.Role.follower⟩).2.1 (by simp)).1,
   (c7_changestate_amended "alert" {} ⟨true, true, true⟩
      ⟨some "standby", Coord.Role.follower⟩).2.2 rfl⟩

/-- Arduino `String.trim` whitespace test (isspace). -/
def isWsChar (c : Char) : Bool :=
  c == ' ' || c == '\t' || c == '\n' || c == '\r'

/-- Arduino `String.trim`: strip leading and trailing whitespace. -/
def trimChars (cs : List Char) : List Char :=
  ((cs.dropWhile isWsChar).reverse.dropWhile isWsChar).reverse

/-- Decimal digits prefix value, 0 when there is none (as in C `atol`). -/
def digitsVal (cs : List Char) : ℤ :=
  (cs.takeWhile Char.isDigit).foldl
    (fun acc c => acc * 10 + ((c.toNat : ℤ) - ('0'.toNat : ℤ))) 0

/-- Arduino `String.toInt` (C `atol`): optional leading whitespace and
sign, then the decimal digit prefix; 0 when no digits are found. -/
def toIntArd (cs : List Char) : ℤ :=
  match cs.dropWhile isWsChar with
  | '-' :: rest => - digitsVal rest
  | '+' :: rest => digitsVal rest
  | rest => digitsVal rest

namespace Fast

/-- Arduino `constrain(v, lo, hi)`. -/
def constrain (v lo hi : ℤ) : ℤ :=
  if v < lo then lo else if hi < v then hi else v

/-- Device state of the FastLED sketch (first variant of
`arduino_led_controller.ino`): raw state string, last applied RGBW values,
and the strip contents (RGB triples, `NUM_LEDS = 90`). -/
structure FastDevice where
  currentState : List Char
  currR : ℤ
  currG : ℤ
  currB : ℤ
  currW : ℤ
  leds : List (ℤ × ℤ × ℤ)
deriving DecidableEq

/-- Serial replies and strip flushes of the FastLED sketch. -/
inductive FastEffect where
  | serialF (line : String)
  | showF (leds : List (ℤ × ℤ × ℤ))
deriving DecidableEq

/-- The `NUM_LEDS` of the FastLED sketch. -/
def numLeds : ℕ := 90

/-- One pass of the RGBW-token scan of `processCommand` (FastLED variant,
lines 98-109), with `fuel = cd.length - i` making the `i < cd.length`
loop bound structural: cut a token at every comma and at the last
character, stopping after four tokens. -/
def tokenGo (cd : List Char) : ℕ → ℕ → ℕ → List (List Char) →
    List (List Char)
  | 0, _, _, acc => acc
  | fuel + 1, i, lastIndex, acc =>
    if acc.length < 4 then
      if cd.getD i ' ' = ',' ∨ i = cd.length - 1 then
        let e := if i = cd.length - 1 then i + 1 else i
        let tok := (cd.drop lastIndex).take (e - lastIndex)
        tokenGo cd fuel (i + 1) (i + 1) (acc ++ [tok])
      else tokenGo cd fuel (i + 1) lastIndex acc
    else acc

/-- The RGBW-token scan of `processCommand` (FastLED variant, lines
98-109): `for (i = 0; i < colorData.length() && index < 4; i++)`. -/
def tokenLoop (cd : List Char) : List (List Char) :=
  tokenGo cd cd.length 0 0 []

/-- The `updateLEDs` (FastLED variant, lines 139-159), WS2812B branch: fold a
third of the white channel into each RGB channel and fill the strip. -/
def updateLEDs (r g b w : ℤ) : List (ℤ × ℤ × ℤ) :=
  let rFinal := constrain (r + w / 3) 0 255
  let gFinal := constrain (g + w / 3) 0 255
  let bFinal := constrain (b + w / 3) 0 255
  List.replicate numLeds (rFinal, gFinal, bFinal)

/-- The `OK:` acknowledgment line of the FastLED `processCommand`. -/
def okLine (state : List Char) (r g b w : ℤ) : String :=
  "OK: " ++ String.mk state ++ " -> R:" ++ toString r ++ " G:" ++ toString g
    ++ " B:" ++ toString b ++ " W:" ++ toString w

/-- The `processCommand` of the FastLED sketch (lines 80-137). -/
def processCommand (line : List Char) (d : FastDevice) :
    FastDevice × List FastEffect :=
  let cmd := trimChars line
  if cmd.isEmpty then (d, [])
  else
    match cmd.findIdx? (· == ',') with
    | none => (d, [.serialF "ERROR: Invalid command format"])
    | some k =>
      let state := cmd.take k
      let colorData := cmd.drop (k + 1)
      let toks := tokenLoop colorData
      if toks.length ≠ 4 then (d, [.serialF "ERROR: Invalid RGBW values"])
      else
        let cr := constrain (toIntArd (toks.getD 0 [])) 0 255
        let cg := constrain (toIntArd (toks.getD 1 [])) 0 255
        let cb := constrain (toIntArd (toks.getD 2 [])) 0 255
        let cw := constrain (toIntArd (toks.getD 3 [])) 0 255
        let strip := updateLEDs cr cg cb cw
        ({ currentState := state, currR := cr, currG := cg, currB := cb,
           currW := cw, leds := strip },
         [.showF strip, .serialF (okLine state cr cg cb cw)])

end Fast

namespace Neo

/-- An RGBW quadruple as packed by `strip.Color` (each channel a uint8). -/
structure RGBW where
  r : ℕ
  g : ℕ
  b : ℕ
  w : ℕ
deriving DecidableEq

/-- The `LED_COUNT` of the Adafruit sketch. -/
def ledCount : ℕ := 90

/-- The `TRANSITION_DELAY` (ms between LED changes during the wipe). -/
def transitionDelayMs : ℕ := 20

/-- The `getColorForState` (Adafruit variant, lines 345-378): the fixed
per-state palette baked into the device; wire-supplied RGBW is ignored. -/
def getColorForState : Option StName → RGBW
  | some .standby => ⟨4, 8, 20, 5⟩
  | some .arrival => ⟨0, 0, 50, 0⟩
  | some .alert => ⟨255, 0, 0, 0⟩
  | some .adaptive => ⟨120, 0, 190, 0⟩
  | some .connection => ⟨255, 130, 0, 0⟩
  | none => ⟨0, 0, 0, 0⟩

/-- Device state of the Adafruit sketch: state enum (`none` is
`STATE_NONE`), the has-color flag, the current base color, the wipe flag,
the pulse throttle timestamp, and the strip contents. -/
structure NeoDevice where
  currentState : Option StName
  hasCurrentColor : Bool
  currR : ℕ
  currG : ℕ
  currB : ℕ
  currW : ℕ
  inTransition : Bool
  lastPulseUpdate : ℕ
  strip : List RGBW
deriving DecidableEq

/-- Strip flushes (`strip.show`), blocking delays, and serial replies. -/
inductive NeoEffect where
  | showE (s : List RGBW)
  | delayE (ms : ℕ)
  | serialE (line : String)
deriving DecidableEq

/-- State-name lookup of `processCommand` (lines 306-319): the trimmed,
lowercased leading token against the fixed names, `STATE_NONE` otherwise. -/
def stateOfToken (tok : List Char) : Option StName :=
  if tok = "standby".toList then some .standby
  else if tok = "arrival".toList then some .arrival
  else if tok = "alert".toList then some .alert
  else if tok = "adaptive".toList then some .adaptive
  else if tok = "connection".toList then some .connection
  else none

/-- The `OK: state = …` acknowledgment line. -/
def okLine (tok : List Char) : String := "OK: state = " ++ String.mk tok

/-- The `applyStateColorInstant` (lines 383-395): record the base color, set
the has-color flag, fill every pixel and flush once. -/
def applyStateColorInstant (c : RGBW) (d : NeoDevice) :
    NeoDevice × List NeoEffect :=
  ({ d with currR := c.r, currG := c.g, currB := c.b, currW := c.w,
            hasCurrentColor := true, strip := List.replicate ledCount c },
   [.showE (List.replicate ledCount c)])

/-- The wipe loop of `transitionSideToSide` (lines 413-417): for each
position in order, set that pixel to the target color, flush the strip,
and delay; `rem` counts the remaining positions. -/
def wipeGo (toC : RGBW) : List RGBW → ℕ → ℕ → List RGBW × List NeoEffect
  | strip, _, 0 => (strip, [])
  | strip, idx, rem + 1 =>
    let strip1 := strip.set idx toC
    let next := wipeGo toC strip1 (idx + 1) rem
    (next.1, .showE strip1 :: .delayE transitionDelayMs :: next.2)

/-- The `transitionSideToSide` (lines 398-427): refill with the old color and
flush, wipe left (0) to right (`LED_COUNT`-1) exactly once, then commit the
new base color; `inTransition` is raised for the duration and lowered at
the end. -/
def transitionSideToSide (fromC toC : RGBW) (d : NeoDevice) :
    NeoDevice × List NeoEffect :=
  let strip0 := List.replicate ledCount fromC
  let next := wipeGo toC strip0 0 ledCount
  ({ d with currR := toC.r, currG := toC.g, currB := toC.b, currW := toC.w,
            hasCurrentColor := true, inTransition := false, strip := next.1 },
   .showE strip0 :: next.2)

/-- The `processCommand` of the Adafruit sketch (lines 291-341). -/
def processCommand (line : List Char) (d : NeoDevice) :
    NeoDevice × List NeoEffect :=
  let cmd := trimChars line
  if cmd.isEmpty then (d, [])
  else
    match cmd.findIdx? (· == ',') with
    | none => (d, [.serialE "ERROR: Invalid format (no comma)"])
    | some k =>
      let stateStr := (trimChars (cmd.take k)).map Char.toLower
      let newState := stateOfToken stateStr
      let t := getColorForState newState
      let step :=
        if d.hasCurrentColor = false ∨ newState = none then
          applyStateColorInstant t d
        else if newState ≠ d.currentState then
          transitionSideToSide ⟨d.currR, d.currG, d.currB, d.currW⟩ t d
        else (d, [])
      ({ step.1 with currentState := newState },
       step.2 ++ [.serialE (okLine stateStr)])

/-- The per-state pulse parameters (period ms, min factor, max factor) of
`updatePulse` (lines 446-485); `none` for the states that never pulse. -/
def pulseParams : Option StName → Option (ℕ × ℚ × ℚ)
  | some .arrival => some (6000, 0.3, 0.9)
  | some .alert => some (1200, 0.2, 1)
  | some .adaptive => some (5000, 0.25, 0.95)
  | some .connection => some (7000, 0.3, 1)
  | some .standby => none
  | none => none

/-- The brightness factor of `updatePulse` (lines 489-491):
`minFactor + (maxFactor - minFactor) * (sin(2π·phase) + 1)/2` with
`phase = (now % period) / period`. -/
noncomputable def pulseFactorR (T : ℕ) (mn mx : ℚ) (now : ℕ) : ℝ :=
  (mn : ℝ) + ((mx : ℝ) - (mn : ℝ))
    * ((Real.sin (2 * Real.pi * (((now % T : ℕ) : ℝ) / (T : ℝ))) + 1) / 2)

/-- The `updatePulse` (lines 432-504): early return when no color is set, the
state is `STATE_NONE` or standby, a wipe is in progress, or fewer than
20 ms elapsed; otherwise scale the base color by the sinusoidal factor
(the uint8 cast truncates) and re-flush the whole strip.  `millis()` wrap
is out of scope (ℕ subtraction). -/
noncomputable def updatePulse (d : NeoDevice) (now : ℕ) :
    NeoDevice × Option (List RGBW) :=
  if d.hasCurrentColor = false then (d, none)
  else if d.currentState = none then (d, none)
  else if d.inTransition then (d, none)
  else if d.currentState = some StName.standby then (d, none)
  else if now - d.lastPulseUpdate < 20 then (d, none)
  else
    match pulseParams d.currentState with
    | none => (d, none)
    | some (T, mn, mx) =>
      let f := pulseFactorR T mn mx now
      let col : RGBW :=
        ⟨(⌊(d.currR : ℝ) * f⌋).toNat, (⌊(d.currG : ℝ) * f⌋).toNat,
         (⌊(d.currB : ℝ) * f⌋).toNat, (⌊(d.currW : ℝ) * f⌋).toNat⟩
      ({ d with lastPulseUpdate := now, strip := List.replicate ledCount col },
       some (List.replicate ledCount col))

end Neo

namespace Neo

/-- Setting the element just after `a` copies of `x` rewrites the head of
the tail. -/
theorem set_replicate_append (x z : RGBW) (a : ℕ) (y : RGBW) (l : List RGBW) :
    (List.replicate a x ++ y :: l).set a z = List.replicate a x ++ z :: l := by
  induction a with
  | zero => simp
  | succ n ih => simp [List.replicate_succ, ih]

/-- Absorbing one more copy into a replicate prefix. -/
theorem replicate_append_cons (x : RGBW) (a : ℕ) (l : List RGBW) :
    List.replicate a x ++ x :: l = List.replicate (a + 1) x ++ l := by
  rw [List.replicate_succ', List.append_assoc]
  rfl

/-- Trace of the wipe loop: starting from `a` leading target-colored
pixels and `b` trailing old-colored pixels at position `a`, every step
flushes one more target-colored prefix followed by a delay, and the strip
ends fully target-colored. -/
theorem wipeGo_spec (toC fromC : RGBW) :
    ∀ b a, wipeGo toC (List.replicate a toC ++ List.replicate b fromC) a b
      = (List.replicate (a + b) toC,
         ((List.range b).map (fun k =>
            [NeoEffect.showE (List.replicate (a + k + 1) toC
               ++ List.replicate (b - (k + 1)) fromC),
             NeoEffect.delayE transitionDelayMs])).join) := by
  intro b
  induction b with
  | zero => intro a; simp [wipeGo]
  | succ n ih =>
    intro a
    rw [show List.replicate (n + 1) fromC = fromC :: List.replicate n fromC
        from rfl]
    simp only [wipeGo]
    rw [set_replicate_append, replicate_append_cons, ih (a + 1)]
    conv_rhs => rw [List.range_succ_eq_map]
    simp only [List.map_cons, List.map_map, List.join_cons]
    refine congrArg₂ Prod.mk ?_ ?_
    · congr 1
      omega
    · simp only [Nat.add_zero, Nat.add_sub_cancel, List.cons_append,
        List.nil_append]
      congr 2
      refine congrArg List.join ?_
      refine List.map_congr_left ?_
      intro j _
      simp only [Function.comp_apply]
      have e1 : a + 1 + j + 1 = a + (j + 1) + 1 := by omega
      have e2 : n - (j + 1) = n + 1 - (j + 1 + 1) := by omega
      rw [e1, e2]

end Neo

/-- Claim C2: a repeated wire command naming the state the device is
already in (a real state, with a color already set) performs no second
wipe and no snap: the device is unchanged — the reply line is the only
effect — so two identical commands in a row produce exactly one wipe. -/
theorem c2_same_state_idempotent (d : Neo.NeoDevice) (S : StName)
    (line : List Char) (k : ℕ)
    (hfind : (trimChars line).findIdx? (· == ',') = some k)
    (htok : Neo.stateOfToken
        ((trimChars ((trimChars line).take k)).map Char.toLower) = some S)
    (hcol : d.hasCurrentColor = true)
    (hcur : d.currentState = some S) :
    Neo.processCommand line d
      = (d, [Neo.NeoEffect.serialE (Neo.okLine
          ((trimChars ((trimChars line).take k)).map Char.toLower))]) := by
  have hne : (trimChars line).isEmpty = false := by
    cases h : trimChars line with
    | nil => rw [h] at hfind; simp at hfind
    | cons c cs => simp
  rw [Neo.processCommand]
  simp only [hne, Bool.false_eq_true, if_false, hfind, htok, hcol, hcur]
  have hd : { d with currentState := some S } = d := by
    rw [← hcur]
  simp [hd]

/-- Witness for C2: an alert-colored device receiving `alert,0,0,0,0`. -/
theorem c2_same_state_idempotent_witness :
    Neo.processCommand "alert,0,0,0,0".toList
        ⟨some .alert, true, 255, 0, 0, 0, false, 0,
         List.replicate Neo.ledCount ⟨255, 0, 0, 0⟩⟩
      = (⟨some .alert, true, 255, 0, 0, 0, false, 0,
          List.replicate Neo.ledCount ⟨255, 0, 0, 0⟩⟩,
         [Neo.NeoEffect.serialE (Neo.okLine
           ((trimChars ((trimChars "alert,0,0,0,0".toList).take 5)).map
             Char.toLower))]) :=
  c2_same_state_idempotent _ .alert _ 5 (by decide) (by decide) rfl rfl

/-- Claim C3: for a received command line naming state `S` (the parsed
leading token): when no color has ever been set or `S` is the `none`
sentinel, every light is snapped instantaneously to the target color with
one flush; otherwise, when `S` differs from the current state, the device
performs exactly one positional wipe — after refilling with the old color,
light `i` is set to the target color for `i = 0` to `LED_COUNT`-1 in
order, the strip is flushed after each light, and a fixed
`TRANSITION_DELAY` follows each flush. -/
theorem c3_transition_policy (d : Neo.NeoDevice) (line : List Char) (k : ℕ)
    (hfind : (trimChars line).findIdx? (· == ',') = some k) :
    let tok := (trimChars ((trimChars line).take k)).map Char.toLower
    let newState := Neo.stateOfToken tok
    let t := Neo.getColorForState newState
    ((d.hasCurrentColor = false ∨ newState = none) →
      Neo.processCommand line d
        = ({ d with
              currentState := newState
              currR := t.r
              currG := t.g
              currB := t.b
              currW := t.w
              hasCurrentColor := true
              strip := List.replicate Neo.ledCount t },
           [Neo.NeoEffect.showE (List.replicate Neo.ledCount t),
            Neo.NeoEffect.serialE (Neo.okLine tok)]))
    ∧ (∀ S : StName, d.hasCurrentColor = true → newState = some S →
        some S ≠ d.currentState →
        Neo.processCommand line d
          = ({ d with
                currentState := some S
                currR := t.r
                currG := t.g
                currB := t.b
                currW := t.w
                hasCurrentColor := true
                inTransition := false
                strip := List.replicate Neo.ledCount t },
             Neo.NeoEffect.showE (List.replicate Neo.ledCount
                 ⟨d.currR, d.currG, d.currB, d.currW⟩)
               :: (((List.range Neo.ledCount).map (fun i =>
                     [Neo.NeoEffect.showE (List.replicate (i + 1) t
                        ++ List.replicate (Neo.ledCount - (i + 1))
                            ⟨d.currR, d.currG, d.currB, d.currW⟩),
                      Neo.NeoEffect.delayE Neo.transitionDelayMs])).join
                   ++ [Neo.NeoEffect.serialE (Neo.okLine tok)]))) := by
  intro tok newState t
  have hne : (trimChars line).isEmpty = false := by
    cases h : trimChars line with
    | nil => rw [h] at hfind; simp at hfind
    | cons c cs => simp
  constructor
  · intro hsnap
    rw [Neo.processCommand]
    simp only [hne, Bool.false_eq_true, if_false, hfind]
    rw [if_pos hsnap]
    simp [Neo.applyStateColorInstant]
  · intro S hcol hS hdiff
    have hw := Neo.wipeGo_spec t ⟨d.currR, d.currG, d.currB, d.currW⟩
      Neo.ledCount 0
    simp only [List.replicate_zero, List.nil_append, Nat.zero_add] at hw
    rw [Neo.processCommand]
    simp only [hne, Bool.false_eq_true, if_false, hfind]
    have hnots : ¬ (d.hasCurrentColor = false ∨ newState = none) := by
      rw [hcol, hS]
      simp
    rw [if_neg hnots]
    have hneq : newState ≠ d.currentState := by
      rw [hS]
      exact hdiff
    rw [if_pos hneq, Neo.transitionSideToSide]
    rw [hw]
    simp [hS]
    exact hS

/-- Witness for C3: a snap on a fresh device and a wipe on an alert-colored
device. -/
theorem c3_transition_policy_witness :
    (Neo.processCommand "arrival,0,0,0,0".toList
        ⟨none, false, 0, 0, 0, 0, false, 0,
         List.replicate Neo.ledCount ⟨0, 0, 0, 0⟩⟩
      = (⟨some .arrival, true, 0, 0, 50, 0, false, 0,
          List.replicate Neo.ledCount ⟨0, 0, 50, 0⟩⟩,
         [Neo.NeoEffect.showE (List.replicate Neo.ledCount ⟨0, 0, 50, 0⟩),
          Neo.NeoEffect.serialE (Neo.okLine "arrival".toList)]))
    ∧ (Neo.processCommand "adaptive,0,0,0,0".toList
        ⟨some .alert, true, 255, 0, 0, 0, false, 0,
         List.replicate Neo.ledCount ⟨255, 0, 0, 0⟩⟩
      = (⟨some .adaptive, true, 120, 0, 190, 0, false, 0,
          List.replicate Neo.ledCount ⟨120, 0, 190, 0⟩⟩,
         Neo.NeoEffect.showE (List.replicate Neo.ledCount ⟨255, 0, 0, 0⟩)
           :: (((List.range Neo.ledCount).map (fun i =>
                 [Neo.NeoEffect.showE (List.replicate (i + 1) ⟨120, 0, 190, 0⟩
                    ++ List.replicate (Neo.ledCount - (i + 1)) ⟨255, 0, 0, 0⟩),
                  Neo.NeoEffect.delayE Neo.transitionDelayMs])).join
               ++ [Neo.NeoEffect.serialE (Neo.okLine "adaptive".toList)]))) := by
  constructor
  · exact (c3_transition_policy
      ⟨none, false, 0, 0, 0, 0, false, 0,
       List.replicate Neo.ledCount ⟨0, 0, 0, 0⟩⟩
      "arrival,0,0,0,0".toList 7 (by decide)).1 (Or.inl rfl)
  · exact (c3_transition_policy
      ⟨some .alert, true, 255, 0, 0, 0, false, 0,
       List.replicate Neo.ledCount ⟨255, 0, 0, 0⟩⟩
      "adaptive,0,0,0,0".toList 8 (by decide)).2 .adaptive rfl (by decide)
      (by decide)

/-- Counterexample to claim C4 as stated: `alert,1,2,3,4,5` has a value
part of five comma-separated tokens, so under the claim it is malformed and
must be rejected with an error and no state change; the FastLED
`processCommand` instead accepts it (the scan stops after four tokens),
updates the LEDs and replies with an `OK:` acknowledgment. -/
theorem c4_counterexample :
    (Fast.processCommand "alert,1,2,3,4,5".toList
        ⟨[], 0, 0, 0, 0, List.replicate Fast.numLeds (0, 0, 0)⟩).2
      = [Fast.FastEffect.showF (List.replicate Fast.numLeds (2, 3, 4)),
         Fast.FastEffect.serialF "OK: alert -> R:1 G:2 B:3 W:4"]
    ∧ (Fast.processCommand "alert,1,2,3,4,5".toList
        ⟨[], 0, 0, 0, 0, List.replicate Fast.numLeds (0, 0, 0)⟩).1.currR
      = 1 := by
  constructor
  · rfl
  · rfl

/-- Claim C4 as amended: on the FastLED sketch a nonempty line with no
comma is rejected with `ERROR: Invalid command format` and a line whose
value part scans to fewer than four comma-separated tokens is rejected
with `ERROR: Invalid RGBW values`, the device state unchanged in both
cases (processing is a total function, so the error is non-fatal); on the
Adafruit sketch a nonempty line with no comma is rejected with
`ERROR: Invalid format (no comma)`, state unchanged.  (Lines scanning to
four or more tokens are accepted — extra tokens are ignored and
non-numeric tokens parse as 0 — and fully empty lines are ignored
silently.) -/
theorem c4_malformed_amended :
    (∀ (line : List Char) (d : Fast.FastDevice),
        (trimChars line).isEmpty = false →
        (trimChars line).findIdx? (· == ',') = none →
        Fast.processCommand line d
          = (d, [Fast.FastEffect.serialF "ERROR: Invalid command format"]))
    ∧ (∀ (line : List Char) (d : Fast.FastDevice) (k : ℕ),
        (trimChars line).findIdx? (· == ',') = some k →
        (Fast.tokenLoop ((trimChars line).drop (k + 1))).length ≠ 4 →
        Fast.processCommand line d
          = (d, [Fast.FastEffect.serialF "ERROR: Invalid RGBW values"]))
    ∧ (∀ (line : List Char) (d : Neo.NeoDevice),
        (trimChars line).isEmpty = false →
        (trimChars line).findIdx? (· == ',') = none →
        Neo.processCommand line d
          = (d, [Neo.NeoEffect.serialE "ERROR: Invalid format (no comma)"])) := by
  refine ⟨?_, ?_, ?_⟩
  · intro line d hne hnone
    rw [Fast.processCommand]
    simp only [hne, Bool.false_eq_true, if_false, hnone]
  · intro line d k hfind hlen
    rw [Fast.processCommand]
    have hne : (trimChars line).isEmpty = false := by
      cases h : trimChars line with
      | nil => rw [h] at hfind; simp at hfind
      | cons c cs => simp
    simp only [hne, Bool.false_eq_true, if_false, hfind]
    rw [if_pos hlen]
  · intro line d hne hnone
    rw [Neo.processCommand]
    simp only [hne, Bool.false_eq_true, if_false, hnone]

/-- Witness for C4 (amended): a comma-less line and a two-token line. -/
theorem c4_malformed_amended_witness :
    Fast.processCommand "alert".toList
        ⟨[], 0, 0, 0, 0, List.replicate Fast.numLeds (0, 0, 0)⟩
      = (⟨[], 0, 0, 0, 0, List.replicate Fast.numLeds (0, 0, 0)⟩,
         [Fast.FastEffect.serialF "ERROR: Invalid command format"])
    ∧ Fast.processCommand "alert,1,2".toList
        ⟨[], 0, 0, 0, 0, List.replicate Fast.numLeds (0, 0, 0)⟩
      = (⟨[], 0, 0, 0, 0, List.replicate Fast.numLeds (0, 0, 0)⟩,
         [Fast.FastEffect.serialF "ERROR: Invalid RGBW values"])
    ∧ Neo.processCommand "hello".toList
        ⟨none, false, 0, 0, 0, 0, false, 0,
         List.replicate Neo.ledCount ⟨0, 0, 0, 0⟩⟩
      = (⟨none, false, 0, 0, 0, 0, false, 0,
          List.replicate Neo.ledCount ⟨0, 0, 0, 0⟩⟩,
         [Neo.NeoEffect.serialE "ERROR: Invalid format (no comma)"]) :=
  ⟨c4_malformed_amended.1 "alert".toList _ (by decide) (by decide),
   c4_malformed_amended.2.1 "alert,1,2".toList _ 5 (by decide) (by decide),
   c4_malformed_amended.2.2 "hello".toList _ (by decide) (by decide)⟩

namespace Fast

/-- The `constrain v 0 255` lands in `[0, 255]`. -/
theorem constrain_bounds (v : ℤ) :
    0 ≤ constrain v 0 255 ∧ constrain v 0 255 ≤ 255 := by
  rw [constrain]
  split_ifs <;> omega

end Fast

/-- Claim C9: every valid wire command (comma present, value part scanning
to exactly four tokens) is accepted — never rejected — with each parsed
R/G/B/W value clamped by `constrain` into `[0, 255]` before being applied,
and the `OK:` acknowledgment echoes exactly the clamped values. -/
theorem c9_values_clamped (line : List Char) (d : Fast.FastDevice) (k : ℕ)
    (hfind : (trimChars line).findIdx? (· == ',') = some k)
    (hlen : (Fast.tokenLoop ((trimChars line).drop (k + 1))).length = 4) :
    let toks := Fast.tokenLoop ((trimChars line).drop (k + 1))
    let cr := Fast.constrain (toIntArd (toks.getD 0 [])) 0 255
    let cg := Fast.constrain (toIntArd (toks.getD 1 [])) 0 255
    let cb := Fast.constrain (toIntArd (toks.getD 2 [])) 0 255
    let cw := Fast.constrain (toIntArd (toks.getD 3 [])) 0 255
    Fast.processCommand line d
      = (⟨(trimChars line).take k, cr, cg, cb, cw,
          Fast.updateLEDs cr cg cb cw⟩,
         [Fast.FastEffect.showF (Fast.updateLEDs cr cg cb cw),
          Fast.FastEffect.serialF
            (Fast.okLine ((trimChars line).take k) cr cg cb cw)])
    ∧ (0 ≤ cr ∧ cr ≤ 255) ∧ (0 ≤ cg ∧ cg ≤ 255)
    ∧ (0 ≤ cb ∧ cb ≤ 255) ∧ (0 ≤ cw ∧ cw ≤ 255) := by
  intro toks cr cg cb cw
  have hne : (trimChars line).isEmpty = false := by
    cases h : trimChars line with
    | nil => rw [h] at hfind; simp at hfind
    | cons c cs => simp
  refine ⟨?_, Fast.constrain_bounds _, Fast.constrain_bounds _,
    Fast.constrain_bounds _, Fast.constrain_bounds _⟩
  rw [Fast.processCommand]
  simp only [hne, Bool.false_eq_true, if_false, hfind]
  rw [if_neg (by rw [hlen]; simp)]

/-- Witness for C9: `alert,300,-5,12,0` is clamped to `255,0,12,0`. -/
theorem c9_values_clamped_witness :
    let toks := Fast.tokenLoop ((trimChars "alert,300,-5,12,0".toList).drop 6)
    let cr := Fast.constrain (toIntArd (toks.getD 0 [])) 0 255
    let cg := Fast.constrain (toIntArd (toks.getD 1 [])) 0 255
    let cb := Fast.constrain (toIntArd (toks.getD 2 [])) 0 255
    let cw := Fast.constrain (toIntArd (toks.getD 3 [])) 0 255
    (Fast.processCommand "alert,300,-5,12,0".toList
        ⟨[], 0, 0, 0, 0, List.replicate Fast.numLeds (0, 0, 0)⟩
      = (⟨(trimChars "alert,300,-5,12,0".toList).take 5, cr, cg, cb, cw,
          Fast.updateLEDs cr cg cb cw⟩,
         [Fast.FastEffect.showF (Fast.updateLEDs cr cg cb cw),
          Fast.FastEffect.serialF
            (Fast.okLine ((trimChars "alert,300,-5,12,0".toList).take 5)
              cr cg cb cw)])
    ∧ (0 ≤ cr ∧ cr ≤ 255) ∧ (0 ≤ cg ∧ cg ≤ 255)
    ∧ (0 ≤ cb ∧ cb ≤ 255) ∧ (0 ≤ cw ∧ cw ≤ 255))
    ∧ cr = 255 ∧ cg = 0 ∧ cb = 12 ∧ cw = 0 :=
  ⟨c9_values_clamped "alert,300,-5,12,0".toList
      ⟨[], 0, 0, 0, 0, List.replicate Fast.numLeds (0, 0, 0)⟩ 5
      (by decide) (by decide),
   by decide, by decide, by decide, by decide⟩

namespace Neo

/-- The sinusoidal brightness factor stays within `[mn, mx]` when
`mn ≤ mx`. -/
theorem pulseFactorR_bounds (T : ℕ) (mn mx : ℚ) (hmn : mn ≤ mx) (now : ℕ) :
    (mn : ℝ) ≤ pulseFactorR T mn mx now ∧ pulseFactorR T mn mx now ≤ (mx : ℝ) := by
  rw [pulseFactorR]
  set s := Real.sin (2 * Real.pi * (((now % T : ℕ) : ℝ) / (T : ℝ))) with hs
  have hs1 : -1 ≤ s := Real.neg_one_le_sin _
  have hs2 : s ≤ 1 := Real.sin_le_one _
  have hmn' : (mn : ℝ) ≤ (mx : ℝ) := by exact_mod_cast hmn
  constructor
  · nlinarith
  · nlinarith

end Neo

/-- Claim C8: the pulse update never modifies the strip (and changes
nothing at all) when no color has been set, the state is the `none`
sentinel or standby, or a wipe is in progress; and for every pulsing state
the brightness factor lies between the state's configured minimum and
maximum factor inclusive, following the sinusoidal curve
`min + (max − min)·(sin(2π·(now mod period)/period)+1)/2` of the state's
period. -/
theorem c8_pulse_bounds :
    (∀ (d : Neo.NeoDevice) (now : ℕ),
        d.hasCurrentColor = false ∨ d.currentState = none
          ∨ d.currentState = some StName.standby ∨ d.inTransition = true →
        Neo.updatePulse d now = (d, none))
    ∧ (∀ (S : StName) (T : ℕ) (mn mx : ℚ) (now : ℕ),
        Neo.pulseParams (some S) = some (T, mn, mx) →
        (mn : ℝ) ≤ Neo.pulseFactorR T mn mx now
        ∧ Neo.pulseFactorR T mn mx now ≤ (mx : ℝ)
        ∧ Neo.pulseFactorR T mn mx now
            = (mn : ℝ) + ((mx : ℝ) - (mn : ℝ))
              * ((Real.sin (2 * Real.pi * (((now % T : ℕ) : ℝ) / (T : ℝ)))
                  + 1) / 2)) := by
  constructor
  · intro d now h
    rw [Neo.updatePulse]
    split_ifs with h1 h2 h3 h4 h5
    · rfl
    · rfl
    · rfl
    · rfl
    · rfl
    · rcases h with h | h | h | h <;> simp_all
  · intro S T mn mx now hp
    have hmn : mn ≤ mx := by
      cases S <;> simp [Neo.pulseParams] at hp <;>
        rcases hp with ⟨hT, hmn, hmx⟩ <;> rw [← hmn, ← hmx] <;> norm_num
    refine ⟨(Neo.pulseFactorR_bounds T mn mx hmn now).1,
      (Neo.pulseFactorR_bounds T mn mx hmn now).2, rfl⟩

/-- Witness for C8: a standby device is untouched, and the alert factor at
time 0 is within `[0.2, 1]`. -/
theorem c8_pulse_bounds_witness :
    Neo.updatePulse
        ⟨some .standby, true, 4, 8, 20, 5, false, 0,
         List.replicate Neo.ledCount ⟨4, 8, 20, 5⟩⟩ 1000
      = (⟨some .standby, true, 4, 8, 20, 5, false, 0,
          List.replicate Neo.ledCount ⟨4, 8, 20, 5⟩⟩, none)
    ∧ ((0.2 : ℚ) : ℝ) ≤ Neo.pulseFactorR 1200 0.2 1 0
    ∧ Neo.pulseFactorR 1200 0.2 1 0 ≤ ((1 : ℚ) : ℝ) :=
  ⟨c8_pulse_bounds.1 _ 1000 (Or.inr (Or.inr (Or.inl rfl))),
   (c8_pulse_bounds.2 .alert 1200 0.2 1 0 rfl).1,
   (c8_pulse_bounds.2 .alert 1200 0.2 1 0 rfl).2.1⟩
